import Mathlib

/-!
Verification development for the student-risk prediction backend
(feature extraction, model registry/validation, prediction serving).

The Lean definitions below are a shallow embedding of the Python source:

* `src/backend/api/app.py` — multi-model serving layer:
  `preprocess_student_data_for_prediction`, `validate_data_for_model`,
  `set_current_model`, the `/api/predict` control flow, the
  `/api/predict/batch` loop, and the probability buckets of
  `/api/predict/csv`.
* `src/backend/predict.py` — CSV pipeline: the confidence tiers and the
  `early_time_score_ratio` formula of `create_early_warning_features` /
  `predict_at_risk_for_dataset`.

Numbers are modelled as rationals.  Because Python's `json` module accepts
`Infinity`/`NaN` and overflowing literals parse to `inf`, a JSON number that
reaches the pipeline may be non-finite; we model a possibly non-finite float
as `PyNum := Option ℚ`, `none` standing for a non-finite value (`nan`/`inf`).
The arithmetic helpers below reproduce the relevant Python/NumPy semantics:
non-finite propagates through arithmetic, and any comparison with `nan`
is `False`.
-/

/-- A Python float that may be non-finite (`none` = `nan`/`inf`). -/
abbrev PyNum : Type := Option ℚ

/-- Finite float literal. -/
def pyF (q : ℚ) : PyNum := some q

/-- Addition: non-finite propagates. -/
def pyAdd (a b : PyNum) : PyNum :=
  match a, b with
  | some x, some y => some (x + y)
  | _, _ => none

/-- Division: non-finite propagates; division by zero is non-finite. -/
def pyDiv (a b : PyNum) : PyNum :=
  match a, b with
  | some x, some y => if y = 0 then none else some (x / y)
  | _, _ => none

/-- Division by a natural count (used for means). -/
def pyDivNat (a : PyNum) (n : ℕ) : PyNum :=
  match a with
  | some x => if n = 0 then none else some (x / n)
  | none => none

/-- Sum of a list of Python floats (`0.0` start, non-finite propagates). -/
def pySum (l : List PyNum) : PyNum := l.foldr pyAdd (some 0)

/-- Embeds `np.mean` over a list: sum divided by length (`nan` on the empty list). -/
def pyMean (l : List PyNum) : PyNum := pyDivNat (pySum l) l.length

/-- Python `x > 0` on a float: `False` for `nan` (any comparison with `nan`
is `False`). -/
def pyGtZero (a : PyNum) : Bool :=
  match a with
  | some x => decide (0 < x)
  | none => false

/-- Python `x or 1`: a float is falsy exactly when it equals `0.0`; `nan`
is truthy and therefore survives. -/
def pyOr1 (a : PyNum) : PyNum :=
  match a with
  | some x => if x = 0 then some 1 else some x
  | none => none

/-- Embeds `np.nan_to_num(·, nan=0, posinf=0, neginf=0)` on one cell. -/
def fillZero (a : PyNum) : ℚ :=
  match a with
  | some x => x
  | none => 0

/-- Python `int(q)` for a float `q`: truncation toward zero. -/
def pyInt (q : ℚ) : ℤ := if 0 ≤ q then ⌊q⌋ else ⌈q⌉

/-!
## Data model of an incoming payload

Values below are the payload as seen after JSON parsing and the scalar
coercions at `app.py` lines 744-760: an assignment's `score`/`time` are the
values after `float(...)` (`None`/non-numeric already defaulted to `0`, a
non-finite float modelled as `none`); an assignment that is not a JSON
object, or whose `progress` is not an object, is `AsgItem.bad` (skipped with
a warning, but it still consumes an index in `enumerate`). A course that is
not an object, or whose `assignments` is not a list, is `Course.bad`.
`gradeLevel` is the payload integer after `int(float(...))`, `none` covering
an absent or unparsable value (both end up as 12). `averageScore` /
`completionRate` are `none` when absent, `some none` when present but
non-finite, `some (some q)` when present and finite.
-/

structure Assignment where
  score : PyNum
  time : PyNum
  late : Bool
deriving DecidableEq

inductive AsgItem
  | bad
  | good (a : Assignment)
deriving DecidableEq

inductive Course
  | bad
  | good (assignments : List AsgItem)
deriving DecidableEq

structure StudentData where
  courses : Option (List Course)
  gradeLevel : Option ℤ
  averageScore : Option PyNum
  completionRate : Option PyNum
deriving DecidableEq

/-- The per-course iteration of `app.py` lines 721-772: enumerate the raw
assignment list (bad items keep their index), keep the good ones, and
assign each the simulated month `assignment_idx % 6`. -/
def courseSubs (c : Course) : List (ℕ × Assignment) :=
  match c with
  | .bad => []
  | .good items =>
      items.enum.filterMap fun p =>
        match p.2 with
        | .bad => none
        | .good a => some (p.1 % 6, a)

/-- All processed submissions of a payload, each tagged with its simulated
month (0-based), in iteration order. -/
def subsOf (d : StudentData) : List (ℕ × Assignment) :=
  (d.courses.getD []).flatMap courseSubs

/-- Embeds `monthly_scores[m]`: scores appended to month bucket `m`, in iteration
order (appending during the loop is the same as filtering the full
iteration order by assigned month). -/
def bucketScores (d : StudentData) (m : ℕ) : List PyNum :=
  (subsOf d).filterMap fun s => if s.1 = m then some s.2.score else none

/-- Embeds `monthly_times[m]`: times appended to month bucket `m`. -/
def bucketTimes (d : StudentData) (m : ℕ) : List PyNum :=
  (subsOf d).filterMap fun s => if s.1 = m then some s.2.time else none

/-- Embeds `all_scores_up_to_month` at month index `m` (0-based): the buckets of
months `0..m` concatenated, as built by the inner loop at lines 787-789. -/
def upToScores (d : StudentData) (m : ℕ) : List PyNum :=
  (List.range (m + 1)).flatMap (bucketScores d)

/-- Embeds `cumulative_scores[m]`: mean of all scores up to month `m`, `0` when
there are none (lines 791-795). -/
def cumScore (d : StudentData) (m : ℕ) : PyNum :=
  if upToScores d m = [] then some 0 else pyMean (upToScores d m)

/-- Embeds `monthly_time_totals[m]` = `sum(monthly_times[m])` (line 798). -/
def monthTime (d : StudentData) (m : ℕ) : PyNum := pySum (bucketTimes d m)

/-- The six cumulative scores, months 1..6. -/
def cumScores (d : StudentData) : List PyNum :=
  (List.range 6).map (cumScore d)

/-- The six monthly time totals, months 1..6. -/
def monthTimes (d : StudentData) : List PyNum :=
  (List.range 6).map (monthTime d)

/-- Embeds `total_time` accumulated over all processed assignments (line 763). -/
def totalTimePy (d : StudentData) : PyNum :=
  pySum ((subsOf d).map fun s => s.2.time)

/-- Embeds `total_assignments` (line 764). -/
def totalAssignments (d : StudentData) : ℕ := (subsOf d).length

/-- Embeds `late_submissions` (lines 765-766): count of processed assignments with
a truthy `isLate`. -/
def lateSubmissions (d : StudentData) : ℕ :=
  ((subsOf d).filter fun s => s.2.late).length

/-- Embeds `non_zero_scores = [s for s in cumulative_scores if s > 0]` (lines 835,
847, ...): the comprehension keeps only finite positive values, since any
comparison with `nan` is `False`; so the result is a list of rationals. -/
def posScores (d : StudentData) : List ℚ :=
  (cumScores d).filterMap fun s =>
    match s with
    | some q => if 0 < q then some q else none
    | none => none

/-- The value stored in `avg_score_month_1_to_6` before the
`averageScore` override: mean of the positive cumulative scores, `0` if
there are none (lines 834-839). -/
def avgScoreStored (d : StudentData) : ℚ :=
  if posScores d = [] then 0
  else (posScores d).sum / (posScores d).length

/-- Embeds `np.mean(monthly_time_totals)` (line 843). -/
def avgTimePy (d : StudentData) : PyNum := pyMean (monthTimes d)

/-- Population variance of a list of rationals (`np.var`). -/
def varQ (l : List ℚ) : ℚ :=
  let m := l.sum / l.length
  (l.map fun x => (x - m) ^ 2).sum / l.length

/-- Subtraction: non-finite propagates. -/
def pySub (a b : PyNum) : PyNum :=
  match a, b with
  | some x, some y => some (x - y)
  | _, _ => none

/-- Multiplication: non-finite propagates (the operands below are never the
`0 * inf` corner, every product is a squared deviation). -/
def pyMul (a b : PyNum) : PyNum :=
  match a, b with
  | some x, some y => some (x * y)
  | _, _ => none

/-- Population variance (`np.var`) of a list of Python floats: mean of the
squared deviations from the mean; `nan` propagates. -/
def pyVar (l : List PyNum) : PyNum :=
  pyDivNat (pySum (l.map fun x => pyMul (pySub x (pyMean l)) (pySub x (pyMean l))))
    l.length

/-- Embeds `valid_scores`: the cumulative scores zipped with the weights `1..6`,
keeping positive scores only (line 878); all kept scores are finite. -/
def weightedPairs (d : StudentData) : List (ℚ × ℕ) :=
  ((cumScores d).zip [1, 2, 3, 4, 5, 6]).filterMap fun p =>
    match p.1 with
    | some q => if 0 < q then some (q, p.2) else none
    | none => none

/-- Embeds `valid_data`: `(i+1, score)` pairs of positive cumulative scores
(line 889); all kept scores are finite. -/
def trendPoints (d : StudentData) : List (ℕ × ℚ) :=
  (cumScores d).enum.filterMap fun p =>
    match p.2 with
    | some q => if 0 < q then some (p.1 + 1, q) else none
    | none => none

/-- Least-squares slope of `scipy.stats.linregress` on `(x, y)` points:
`(n·Σxy − Σx·Σy) / (n·Σx² − (Σx)²)`; `none` (non-finite) when the
denominator vanishes. -/
def slopeQ (pts : List (ℕ × ℚ)) : Option ℚ :=
  let n : ℚ := pts.length
  let sx : ℚ := (pts.map fun p => (p.1 : ℚ)).sum
  let sy : ℚ := (pts.map fun p => p.2).sum
  let sxy : ℚ := (pts.map fun p => (p.1 : ℚ) * p.2).sum
  let sxx : ℚ := (pts.map fun p => (p.1 : ℚ) ^ 2).sum
  if n * sxx - sx ^ 2 = 0 then none else some ((n * sxy - sx * sy) / (n * sxx - sx ^ 2))

/-- The value written into one schema slot by
`preprocess_student_data_for_prediction` (app.py lines 696-924).  The
DataFrame starts at `0.0` for every column; `processed_data.loc[0, col]`
is assigned only when `col` is one of the feature names below (each
assignment in the source is guarded by `col in feature_names`, and this
function is only consulted for names of the schema, so the guard holds).
The `averageScore` / `completionRate` overrides (lines 898-917) run after
the derived features, so they are folded into the final slot value, while
`time_score_ratio_month_1_to_6` (computed at lines 860-868, before the
overrides) reads the un-overridden stored values. -/
def featureValue (fn : List String) (d : StudentData) (name : String) : PyNum :=
  match name with
  | "Score_Month_1" => cumScore d 0
  | "Score_Month_2" => cumScore d 1
  | "Score_Month_3" => cumScore d 2
  | "Score_Month_4" => cumScore d 3
  | "Score_Month_5" => cumScore d 4
  | "Score_Month_6" => cumScore d 5
  | "TimeSpent_Month_1" => monthTime d 0
  | "TimeSpent_Month_2" => monthTime d 1
  | "TimeSpent_Month_3" => monthTime d 2
  | "TimeSpent_Month_4" => monthTime d 3
  | "TimeSpent_Month_5" => monthTime d 4
  | "TimeSpent_Month_6" => monthTime d 5
  | "totalTimeSpentMinutes" => totalTimePy d
  | "gradeLevel" => some ((d.gradeLevel.getD 12 : ℤ) : ℚ)
  | "late_submission_rate" =>
      if 0 < totalAssignments d
      then some ((lateSubmissions d : ℚ) / (totalAssignments d : ℚ))
      else some 0
  | "avg_score_month_1_to_6" =>
      -- lines 834-839, then the override at lines 899-905 (finite values only)
      match d.averageScore with
      | some (some q) => some q
      | _ => some (avgScoreStored d)
  | "avg_time_month_1_to_6" => avgTimePy d
  | "score_variance_month_1_to_6" =>
      if 1 < (posScores d).length then some (varQ (posScores d)) else some 0
  | "time_variance_month_1_to_6" =>
      if 1 < (monthTimes d).length then pyVar (monthTimes d) else some 0
  | "time_score_ratio_month_1_to_6" =>
      -- lines 860-868: read the stored averages when their columns exist,
      -- otherwise recompute; `np.mean([]) or 1` leaves `nan` in place
      -- because `nan` is truthy.
      let avgS : PyNum :=
        if "avg_score_month_1_to_6" ∈ fn then some (avgScoreStored d)
        else pyOr1 (if posScores d = [] then none
                    else some ((posScores d).sum / (posScores d).length))
      let avgT : PyNum :=
        if "avg_time_month_1_to_6" ∈ fn then avgTimePy d else avgTimePy d
      if pyGtZero avgS then pyDiv avgT avgS else some 0
  | "engagement_month_1_to_6" =>
      -- lines 871-873, then the override at lines 907-917 (in-range only)
      let base : PyNum :=
        some ((((monthTimes d).filter pyGtZero).length : ℚ) / 6)
      match d.completionRate with
      | some (some q) => if 0 ≤ q ∧ q ≤ 100 then some (q / 100) else base
      | _ => base
  | "weighted_score_month_1_to_6" =>
      if weightedPairs d = [] then some 0
      else some (((weightedPairs d).map fun p => p.1 * (p.2 : ℚ)).sum /
                 (((weightedPairs d).map fun p => (p.2 : ℚ)).sum))
  | "score_trend_month_1_to_6" =>
      if 2 ≤ (trendPoints d).length then
        match slopeQ (trendPoints d) with
        | some s => some s
        | none => some 0
      else some 0
  | _ => some 0

/-- Embeds `preprocess_student_data_for_prediction(data, feature_names)`
(app.py lines 673-943), returning the final row vector or the
`PreprocessingError` message.  An empty schema is refused up front; a
payload with no (or missing) `courses` returns the all-zero default row
before any aggregation (lines 703-705); otherwise every slot is computed,
remaining non-finite cells are zeroed (`fillna(0)` / `nan_to_num`,
lines 923-934), and the width check at lines 928-929 guards the result. -/
def preprocess (fn : List String) (d : StudentData) : Except String (List ℚ) :=
  if fn = [] then .error "Feature names not available"
  else
    match d.courses with
    | none => .ok (fn.map fun _ => (0 : ℚ))
    | some [] => .ok (fn.map fun _ => (0 : ℚ))
    | some (_ :: _) =>
        let result := (fn.map (featureValue fn d)).map fillZero
        if result.length ≠ fn.length
        then .error "Processed data has wrong number of features"
        else .ok result

/-- Embeds `create_early_warning_features` (predict.py lines 76-80): the
`early_time_score_ratio` column, computed row-wise by
`np.where(early_avg_score > 0, early_avg_time / early_avg_score, 0)`. -/
def earlyTimeScoreRatio (avgScore avgTime : ℚ) : ℚ :=
  if 0 < avgScore then avgTime / avgScore else 0

/-- Embeds `AVAILABLE_MODELS` (app.py lines 196-221): id and `months_required`. -/
def availableModels : List (String × ℕ) :=
  [("1_3", 3), ("1_6", 6), ("1_9", 9), ("1_12", 12)]

/-- Result triple of `validate_data_for_model`. -/
structure VResult where
  ok : Bool
  months : ℕ
  reason : Option String
deriving DecidableEq

/-- The assignment count of `validate_data_for_model` (app.py lines
495-500): courses that are objects and whose `assignments` field is a list
contribute the length of that list (all items counted, they are not
inspected here). -/
def countedAssignments (cs : List Course) : ℕ :=
  (cs.map fun c =>
    match c with
    | .bad => 0
    | .good items => items.length).sum

/-- The body of `validate_data_for_model` after `required_months` has been
resolved (app.py lines 489-521). -/
def validateCore (d : StudentData) (modelType : String) (req : ℕ) : VResult :=
  match d.courses with
  | none => ⟨false, 0, some "No course data provided"⟩
  | some [] => ⟨false, 0, some "No course data provided"⟩
  | some cs =>
      let total := countedAssignments cs
      if total = 0 then
        if modelType ∈ availableModels.map Prod.fst then
          ⟨false, 0, some "No assignments found"⟩
        else
          ⟨false, 0, some "Error validating data: KeyError"⟩
      else
        ⟨true, min req (max 1 total), none⟩

/-- Embeds `validate_data_for_model(data, model_type)` (app.py lines 474-521).
`multi` is the `ENABLE_MULTI_MODEL` flag.  A missing or empty `courses`
list is rejected up front; then the assignments of well-formed courses are
counted; zero assignments reject (note that in single-model mode line 516
indexes `AVAILABLE_MODELS` with an unknown key, and the resulting
`KeyError` is converted by the `except` clause into the generic rejection);
otherwise the payload is accepted with
`estimated_months = min(required, max(1, total))`. -/
def validateDataForModel (d : StudentData) (modelType : String) (multi : Bool) :
    VResult :=
  if ¬ multi ∨ modelType = "single" then
    validateCore d modelType 6
  else
    match availableModels.lookup modelType with
    | none => ⟨false, 0, some ("Unknown model type: " ++ modelType)⟩
    | some req => validateCore d modelType req

/-- Embeds the `predict.py` confidence tiers (`map_confidence`, lines 288-295). -/
def mapConfidence (p : ℚ) : String :=
  if 90 / 100 ≤ p then "Very High"
  else if 75 / 100 ≤ p then "High"
  else if 60 / 100 ≤ p then "Medium"
  else "Low"

/-- Embeds `risk_score` of the `/api/predict` endpoint (app.py lines 1060-1064):
`int(probability * 100)`, then clamped into `[0, 100]` when out of range. -/
def riskScoreOf (p : ℚ) : ℤ :=
  let r := pyInt (p * 100)
  if 0 ≤ r ∧ r ≤ 100 then r else max 0 (min 100 r)

/-- Embeds `validate_input_data(data)` (app.py lines 523-564, the reachable first
body): requires a non-empty `courses` array whose entries are all objects
carrying a list-valued `assignments` field.  (Failures of the numeric-field
`float(...)` coercions are payload shapes outside `StudentData` and are not
modelled.) -/
def validInput (d : StudentData) : Bool :=
  match d.courses with
  | none => false
  | some [] => false
  | some cs => cs.all fun c =>
      match c with
      | .bad => false
      | .good _ => true

/-- Outcome of one `/api/predict` call (the HTTP response category). -/
inductive POutcome
  | invalidModel
  | insufficientData
  | invalidInput
  | preprocessFailed
  | predictionFailed
  | success
  | internalError
deriving DecidableEq

/-- One `/api/predict` request: the optional `model_id`, the payload, and
whether the (external, pickled) classifier raises on this call — covering
both a missing `predict_proba` (the explicit `PredictionError`) and any
exception from `predict`/`predict_proba`/`classes_` (app.py
lines 1039-1058). -/
structure PredReq where
  modelId : Option String
  payload : StudentData
  predictionRaises : Bool

/-- The tail of the `/api/predict` handler once the model resolution is done
(app.py lines 1012-1121).  `st` is the (possibly switched) current model,
`original` the model that was current when the request arrived, `switched`
the `model_switched` flag; the returned `String` is the value of the global
`current_model_type` after the handler returns.  Restore happens on the
validation-failure (line 1018), preprocessing-failure (line 1031), success
(line 1105) and unexpected-exception (line 1114) paths — but the
`except` clause of the prediction step (lines 1052-1058) returns the 500
response directly without restoring. -/
def predictCore (loaded : List (String × List String)) (st original : String)
    (requested : String) (switched : Bool) (r : PredReq) : String × POutcome :=
  let restored := if switched then original else st
  if ¬ validInput r.payload then (restored, .invalidInput)
  else
    match preprocess ((loaded.lookup st).getD []) r.payload with
    | .error _ => (restored, .preprocessFailed)
    | .ok _ =>
        if r.predictionRaises then (st, .predictionFailed)
        else if requested ∈ availableModels.map Prod.fst then (restored, .success)
        else (restored, .internalError)

/-- The `/api/predict` handler (app.py lines 956-1121) as a transition on
the global `current_model_type`.  `loaded` is the in-memory `models`
registry (id ↦ feature names), `cur` the persistent active model id.
When the requested id differs from the active one it is looked up, the
payload is validated for it, and `set_current_model` switches the global
before the shared tail runs; with no (or an equal) `model_id` the tail runs
unswitched.  The success path additionally indexes `AVAILABLE_MODELS` with
the requested id to build the response (line 1097); an unknown key there
raises and is absorbed by the outer handler, which restores the model. -/
def predictFlow (loaded : List (String × List String)) (cur : String)
    (r : PredReq) : String × POutcome :=
  let requested := r.modelId.getD cur
  if requested = cur then
    predictCore loaded cur cur requested false r
  else if requested ∉ loaded.map Prod.fst then (cur, .invalidModel)
  else if ¬ (validateDataForModel r.payload requested true).ok then
    (cur, .insufficientData)
  else
    predictCore loaded requested cur requested true r

/-!
## Batch endpoint (`/api/predict/batch`, app.py lines 1124-1265)
-/

/-- One successful per-student prediction record. -/
structure SRes where
  sid : String
  sname : String
  isAtRisk : Bool
  prob : ℚ
deriving DecidableEq

/-- One entry of the `failed_predictions` list. -/
structure SFail where
  sid : String
  sname : String
deriving DecidableEq

/-- One element of the incoming `students` array: either not a JSON object
at all, or an object with optional `studentId`/`studentName` fields and a
payload. -/
inductive SItem
  | notDict
  | dict (sid sname : Option String) (d : StudentData)
deriving DecidableEq

/-- The external classifier bundle as used by the batch loop: from a
feature row it either produces `(prediction == 1, proba[classes.index(1)])`
or raises (`none` — covering `predict`/`predict_proba`/`classes.index`
exceptions, which the per-student handler catches). -/
def Classifier : Type := List ℚ → Option (Bool × ℚ)

/-- The batch summary (app.py lines 1234-1244).  Note that
`total_students = len(results)` counts the successes. -/
structure Summary where
  total : ℕ
  successes : ℕ
  failures : ℕ
  atRisk : ℕ
  atRiskPct : ℚ
deriving DecidableEq

/-- One iteration of the batch loop (app.py lines 1194-1232) for student
`i`: a success is appended to `results`, a caught exception is recorded in
`failed_predictions` with the student's id/name — but when the student
entry is not an object, the `except` handler's own
`student_data.get('studentId', ...)` raises `AttributeError`, which
escapes the loop (`none`). -/
def processOne (c : Classifier) (fn : List String) (i : ℕ) (s : SItem) :
    Option (SRes ⊕ SFail) :=
  match s with
  | .notDict => none
  | .dict sid sname d =>
      let theId := sid.getD ("student_" ++ toString i)
      let theName := sname.getD "Unknown"
      if ¬ validInput d then some (.inr ⟨theId, theName⟩)
      else
        match preprocess fn d with
        | .error _ => some (.inr ⟨theId, theName⟩)
        | .ok v =>
            match c v with
            | none => some (.inr ⟨theId, theName⟩)
            | some (pred, p) => some (.inl ⟨theId, theName, pred, p⟩)

/-- The whole batch loop from student index `i`: `none` when an
`AttributeError` escapes (aborting the loop and the request). -/
def processAll (c : Classifier) (fn : List String) :
    ℕ → List SItem → Option (List SRes × List SFail)
  | _, [] => some ([], [])
  | i, s :: rest =>
      match processOne c fn i s with
      | none => none
      | some r =>
          match processAll c fn (i + 1) rest with
          | none => none
          | some (res, fails) =>
              match r with
              | .inl x => some (x :: res, fails)
              | .inr f => some (res, f :: fails)

/-- Outcome of one `/api/predict/batch` call. -/
inductive BOutcome
  | badRequest
  | internalError
  | ok (results : List SRes) (failed : List SFail) (summary : Summary)

/-- The summary computed at app.py lines 1234-1244. -/
def mkSummary (res : List SRes) (fails : List SFail) : Summary :=
  let atRisk := (res.filter fun r => r.isAtRisk).length
  ⟨res.length, res.length, fails.length, atRisk,
    if 0 < res.length then (atRisk : ℚ) / (res.length : ℚ) * 100 else 0⟩

/-- The `/api/predict/batch` handler (app.py lines 1124-1265): empty and
oversized (`> 100`) batches are rejected with 400; an exception escaping
the per-student loop becomes the generic 500; otherwise the collected
results, failures and summary are returned. -/
def predictBatch (c : Classifier) (fn : List String) (students : List SItem) :
    BOutcome :=
  if students.length = 0 then .badRequest
  else if 100 < students.length then .badRequest
  else
    match processAll c fn 0 students with
    | none => .internalError
    | some (res, fails) => .ok res fails (mkSummary res fails)

/-!
## CSV endpoint buckets (`/api/predict/csv`, app.py lines 1417-1441)
-/

/-- Embeds `bucket_label(p)` (app.py lines 1433-1437). -/
def bucketLabel (p : ℚ) : String :=
  if 70 / 100 ≤ p then "high"
  else if 55 / 100 ≤ p then "medium"
  else if 45 / 100 ≤ p then "low"
  else "minimal"

/-- Embeds `high_mask.sum()` (line 1418): rows with probability `≥ 0.70`. -/
def highCount (l : List ℚ) : ℕ :=
  (l.filter fun p => 70 / 100 ≤ p).length

/-- Embeds `medium_mask.sum()` (line 1419): rows with `0.55 ≤ p < 0.70`. -/
def mediumCount (l : List ℚ) : ℕ :=
  (l.filter fun p => 55 / 100 ≤ p ∧ p < 70 / 100).length

/-- Embeds `low_mask.sum()` (line 1420): rows with `0.45 ≤ p < 0.55`. -/
def lowCount (l : List ℚ) : ℕ :=
  (l.filter fun p => 45 / 100 ≤ p ∧ p < 55 / 100).length

/-- Embeds `minimal_mask.sum()` (line 1421): rows with `p < 0.45`. -/
def minimalCount (l : List ℚ) : ℕ :=
  (l.filter fun p => p < 45 / 100).length

/-- Embeds `predicted_class_prob` (predict.py lines 282-286): the probability of
the predicted class — the at-risk probability when the row is predicted
at-risk, the not-at-risk probability otherwise. -/
def predictedClassProb (predIsAtRisk : Bool) (pAt pNot : ℚ) : ℚ :=
  if predIsAtRisk then pAt else pNot

/-- One row's `prediction_confidence` (predict.py line 297). -/
def rowConfidence (predIsAtRisk : Bool) (pAt pNot : ℚ) : String :=
  mapConfidence (predictedClassProb predIsAtRisk pAt pNot)

/-- The assignment total seen by `validate_data_for_model` for a payload. -/
def totalCounted (d : StudentData) : ℕ :=
  countedAssignments (d.courses.getD [])

/-- Returns `months_required` of a model id per `AVAILABLE_MODELS`. -/
def monthsRequiredOf (mt : String) : ℕ :=
  (availableModels.lookup mt).getD 0

/-!
## Claim-side formalizations

The spec describes the live-mode monthly aggregation as operating on "all
submission scores assigned to months 1 through m"; the following
definitions state those quantities directly over the tagged submission
list, to be compared with the incrementally-built lists of the code. -/

/-- Scores of all submissions whose assigned (0-based) month is `≤ m`. -/
def scoresAssignedUpTo (d : StudentData) (m : ℕ) : List PyNum :=
  (subsOf d).filterMap fun s => if s.1 ≤ m then some s.2.score else none

/-- Times of all submissions whose assigned (0-based) month is exactly
`m`. -/
def timesAssignedAt (d : StudentData) (m : ℕ) : List PyNum :=
  (subsOf d).filterMap fun s => if s.1 = m then some s.2.time else none

/-!
## Concrete example inputs
-/

/-- The spec's running example submission: score 80, 30 minutes, on time. -/
def exSubmission : Assignment := ⟨some 80, some 30, false⟩

/-- A payload with exactly that one submission. -/
def exPayload : StudentData :=
  ⟨some [Course.good [AsgItem.good exSubmission]], none, none, none⟩

/-- A schema with the 3 monthly score/time slots plus the derived average
and engagement features actually written by the serving-layer
preprocessing. -/
def exSchema3 : List String :=
  ["Score_Month_1", "Score_Month_2", "Score_Month_3",
   "TimeSpent_Month_1", "TimeSpent_Month_2", "TimeSpent_Month_3",
   "avg_score_month_1_to_6", "engagement_month_1_to_6"]

/-- A payload with seven submissions in one course: six with score 60 and a
seventh with score 90 (all 10 minutes, on time).  Index 6 wraps to month 1
under `% 6`. -/
def paySeven : StudentData :=
  ⟨some [Course.good
      [AsgItem.good ⟨some 60, some 10, false⟩,
       AsgItem.good ⟨some 60, some 10, false⟩,
       AsgItem.good ⟨some 60, some 10, false⟩,
       AsgItem.good ⟨some 60, some 10, false⟩,
       AsgItem.good ⟨some 60, some 10, false⟩,
       AsgItem.good ⟨some 60, some 10, false⟩,
       AsgItem.good ⟨some 90, some 10, false⟩]], none, none, none⟩

/-- A payload with one submission of score 90. -/
def pay90 : StudentData :=
  ⟨some [Course.good [AsgItem.good ⟨some 90, some 10, false⟩]], none, none, none⟩

/-- A two-model registry as loaded in multi-model mode: the 3-month and
6-month bundles (feature lists abbreviated to a valid non-empty schema). -/
def regTwo : List (String × List String) :=
  [("1_3", ["gradeLevel"]), ("1_6", ["gradeLevel"])]

/-- A classifier stub standing for a loaded pickled model: never raises,
always predicts the not-at-risk class with probability 1/2. -/
def clfConst : Classifier := fun _ => some (false, 1 / 2)

/-- A payload whose `courses` entry is malformed (a non-object course). -/
def payBadCourses : StudentData := ⟨some [Course.bad], none, none, none⟩

/-- Batch student 1: well-formed. -/
def stu1 : SItem := .dict (some "s1") (some "A") exPayload

/-- Batch student 2: malformed `courses`. -/
def stu2 : SItem := .dict (some "s2") (some "B") payBadCourses

/-- Batch student 3: well-formed. -/
def stu3 : SItem := .dict (some "s3") (some "C") pay90

/-!
## Theorems
-/

theorem pyAdd_assoc (a b c : PyNum) : pyAdd (pyAdd a b) c = pyAdd a (pyAdd b c) := by
  cases a <;> cases b <;> cases c <;> simp [pyAdd] <;> ring

theorem pyAdd_comm (a b : PyNum) : pyAdd a b = pyAdd b a := by
  cases a <;> cases b <;> simp [pyAdd] <;> ring

theorem pyAdd_zero_left (a : PyNum) : pyAdd (some 0) a = a := by
  cases a <;> simp [pyAdd]

theorem pySum_append (a b : List PyNum) :
    pySum (a ++ b) = pyAdd (pySum a) (pySum b) := by
  induction a with
  | nil => simp [pySum, pyAdd_zero_left]
  | cons h t ih =>
      simp only [pySum, List.foldr_cons, List.cons_append] at ih ⊢
      rw [ih, pyAdd_assoc]

/-- Auxiliary: the four CSV probability buckets are mutually exclusive and
exhaustive, so their mask counts add up to the row count. -/
theorem bucketCounts_partition (l : List ℚ) :
    highCount l + mediumCount l + lowCount l + minimalCount l = l.length := by
  induction l with
  | nil => rfl
  | cons p t ih =>
      unfold highCount mediumCount lowCount minimalCount at ih ⊢
      simp only [Bool.decide_and] at ih ⊢
      simp only [List.filter_cons]
      by_cases h1 : (70 : ℚ) / 100 ≤ p
      · have h3 : ¬ p < (70 : ℚ) / 100 := not_lt.mpr h1
        have h4 : ¬ p < (55 : ℚ) / 100 := by linarith
        have h5 : ¬ p < (45 : ℚ) / 100 := by linarith
        simp [h1, h3, h4, h5]
        omega
      · by_cases h2 : (55 : ℚ) / 100 ≤ p
        · have h3 : p < (70 : ℚ) / 100 := not_le.mp h1
          have h4 : ¬ p < (55 : ℚ) / 100 := not_lt.mpr h2
          have h5 : ¬ p < (45 : ℚ) / 100 := by linarith
          have h6 : (45 : ℚ) / 100 ≤ p := by linarith
          simp [h1, h2, h3, h4, h5, h6]
          omega
        · by_cases h3 : (45 : ℚ) / 100 ≤ p
          · have h4 : p < (55 : ℚ) / 100 := not_le.mp h2
            have h5 : ¬ p < (45 : ℚ) / 100 := not_lt.mpr h3
            simp [h1, h2, h3, h4, h5]
            omega
          · have h4 : p < (45 : ℚ) / 100 := not_le.mp h3
            have h5 : p < (55 : ℚ) / 100 := by linarith
            simp [h1, h2, h3, h4, h5]
            omega

/-- C6: on the CSV/report path the probability-scale risk bucket satisfies
`p ≥ 0.70 → high`, `0.55 ≤ p < 0.70 → medium`, `0.45 ≤ p < 0.55 → low`,
`p < 0.45 → minimal` (in particular 0.70 → high, 0.6999 → medium,
0.55 → medium, 0.549 → low, 0.45 → low, 0.449 → minimal), and the four
mask counts partition the set of rows. -/
theorem csv_risk_buckets_spec :
    (∀ p : ℚ,
      (bucketLabel p = "high" ↔ 70 / 100 ≤ p) ∧
      (bucketLabel p = "medium" ↔ 55 / 100 ≤ p ∧ p < 70 / 100) ∧
      (bucketLabel p = "low" ↔ 45 / 100 ≤ p ∧ p < 55 / 100) ∧
      (bucketLabel p = "minimal" ↔ p < 45 / 100)) ∧
    bucketLabel (70 / 100) = "high" ∧
    bucketLabel (6999 / 10000) = "medium" ∧
    bucketLabel (55 / 100) = "medium" ∧
    bucketLabel (549 / 1000) = "low" ∧
    bucketLabel (45 / 100) = "low" ∧
    bucketLabel (449 / 1000) = "minimal" ∧
    (∀ l : List ℚ,
      highCount l + mediumCount l + lowCount l + minimalCount l = l.length) := by
  refine ⟨?_, ?_, ?_, ?_, ?_, ?_, ?_, bucketCounts_partition⟩
  · intro p
    unfold bucketLabel
    split_ifs with h1 h2 h3 <;>
      refine ⟨?_, ?_, ?_, ?_⟩ <;> simp_all <;> intros <;> linarith
  all_goals (unfold bucketLabel; norm_num)

/-- C10: on the CSV path, each row's `prediction_confidence` tier is the
tier of the probability of the predicted class (the at-risk probability
when predicted at-risk, otherwise the not-at-risk probability), mapped as
`≥ 0.90 → Very High`, `≥ 0.75 → High`, `≥ 0.60 → Medium`, else `Low`. -/
theorem csv_confidence_tiers_spec :
    (∀ (b : Bool) (pAt pNot : ℚ),
      rowConfidence b pAt pNot = mapConfidence (if b then pAt else pNot)) ∧
    (∀ p : ℚ,
      (mapConfidence p = "Very High" ↔ 90 / 100 ≤ p) ∧
      (mapConfidence p = "High" ↔ 75 / 100 ≤ p ∧ p < 90 / 100) ∧
      (mapConfidence p = "Medium" ↔ 60 / 100 ≤ p ∧ p < 75 / 100) ∧
      (mapConfidence p = "Low" ↔ p < 60 / 100)) := by
  constructor
  · intro b pAt pNot
    rfl
  · intro p
    unfold mapConfidence
    split_ifs with h1 h2 h3 <;>
      refine ⟨?_, ?_, ?_, ?_⟩ <;> simp_all <;> intros <;> linarith

/-- C3 counterexample: at probability 0.999 the endpoint computes
`int(0.999 * 100) = 99`, while `round(0.999 * 100) = 100`; the code
truncates rather than rounds. -/
theorem riskScore_not_rounded :
    riskScoreOf (999 / 1000) = 99 ∧
    round ((999 / 1000 : ℚ) * 100) = 100 ∧ (99 : ℤ) ≠ 100 := by
  refine ⟨?_, ?_, by decide⟩
  · unfold riskScoreOf pyInt
    have hf : ⌊(999 / 1000 : ℚ) * 100⌋ = 99 := by
      rw [Int.floor_eq_iff]
      norm_num
    rw [if_pos (by norm_num), hf]
    norm_num
  · rw [round_eq]
    rw [Int.floor_eq_iff]
    norm_num

/-- C3 (amended): for every probability `p ∈ [0, 1]`, the endpoint's
`risk_score` equals the truncation `⌊p * 100⌋` (not the rounding) of
`p * 100`, and it lies in `[0, 100]`. -/
theorem riskScore_truncates_and_clamps (p : ℚ) (h0 : 0 ≤ p) (h1 : p ≤ 1) :
    riskScoreOf p = ⌊p * 100⌋ ∧ 0 ≤ riskScoreOf p ∧ riskScoreOf p ≤ 100 := by
  have hp0 : (0 : ℚ) ≤ p * 100 := by nlinarith
  have hp1 : p * 100 ≤ 100 := by nlinarith
  have hfl : (0 : ℤ) ≤ ⌊p * 100⌋ := Int.floor_nonneg.mpr hp0
  have hfu : ⌊p * 100⌋ ≤ 100 := by
    have := Int.floor_le_floor (α := ℚ) hp1
    simpa using this
  have he : riskScoreOf p = ⌊p * 100⌋ := by
    unfold riskScoreOf pyInt
    rw [if_pos hp0, if_pos ⟨hfl, hfu⟩]
  exact ⟨he, by rw [he]; exact hfl, by rw [he]; exact hfu⟩

/-- C3 witness: concrete instantiation at `p = 999/1000`. -/
theorem riskScore_truncates_and_clamps_witness :
    (0 : ℚ) ≤ 999 / 1000 ∧ (999 / 1000 : ℚ) ≤ 1 ∧
    (riskScoreOf (999 / 1000) = ⌊(999 / 1000 : ℚ) * 100⌋ ∧
     0 ≤ riskScoreOf (999 / 1000) ∧ riskScoreOf (999 / 1000) ≤ 100) :=
  ⟨by norm_num, by norm_num,
   riskScore_truncates_and_clamps (999 / 1000) (by norm_num) (by norm_num)⟩

/-- C4: for every non-empty feature schema and every payload, preprocessing
succeeds and produces a vector with exactly one entry per schema name
(width = schema length; the width-check error branch is never taken), and
the entries are the non-finite-replaced (hence finite) cell values. -/
theorem preprocess_width_and_finite (fn : List String) (d : StudentData)
    (h : fn ≠ []) :
    ∃ v : List ℚ, preprocess fn d = .ok v ∧ v.length = fn.length := by
  unfold preprocess
  rw [if_neg h]
  match hc : d.courses with
  | none => exact ⟨_, rfl, by simp⟩
  | some [] => exact ⟨_, rfl, by simp⟩
  | some (c :: cs) =>
      refine ⟨(fn.map (featureValue fn d)).map fillZero, ?_, by simp⟩
      simp

/-- C4 witness: a one-name schema and the example payload. -/
theorem preprocess_width_and_finite_witness :
    (["gradeLevel"] : List String) ≠ [] ∧
    ∃ v : List ℚ, preprocess ["gradeLevel"] exPayload = .ok v ∧
      v.length = (["gradeLevel"] : List String).length :=
  ⟨by decide, preprocess_width_and_finite ["gradeLevel"] exPayload (by decide)⟩

/-- C7: for every known model id, `validate_data_for_model` rejects a
payload iff the total number of assignments across all of its courses is
zero; a payload with at least one assignment is accepted with
`months_estimate = min(months_required, max(1, total_assignments))` — a
count below `months_required` only logs a sparse-data warning, it never
rejects. -/
theorem validation_rejects_iff_no_assignments (d : StudentData) (mt : String)
    (hm : mt ∈ availableModels.map Prod.fst) :
    ((validateDataForModel d mt true).ok = false ↔ totalCounted d = 0) ∧
    ((validateDataForModel d mt true).ok = true →
      (validateDataForModel d mt true).months =
        min (monthsRequiredOf mt) (max 1 (totalCounted d))) := by
  have hmt : mt = "1_3" ∨ mt = "1_6" ∨ mt = "1_9" ∨ mt = "1_12" := by
    simpa [availableModels] using hm
  have hns : mt ≠ "single" := by
    rcases hmt with h | h | h | h <;> subst h <;> decide
  have hreq : availableModels.lookup mt = some (monthsRequiredOf mt) := by
    rcases hmt with h | h | h | h <;> subst h <;> rfl
  unfold validateDataForModel
  rw [if_neg (by simp [hns]), hreq]
  unfold validateCore totalCounted
  match hc : d.courses with
  | none => simp [countedAssignments]
  | some [] => simp [countedAssignments]
  | some (c :: cs) =>
      by_cases hz : countedAssignments (c :: cs) = 0
      · simp [hz, hm]
      · simp [hz]

/-- C7 witness: one assignment against the 12-month model is accepted with
`months_estimate = min(12, max(1, 1)) = 1`. -/
theorem validation_rejects_iff_no_assignments_witness :
    ("1_12" ∈ availableModels.map Prod.fst) ∧
    (((validateDataForModel exPayload "1_12" true).ok = false ↔
        totalCounted exPayload = 0) ∧
     ((validateDataForModel exPayload "1_12" true).ok = true →
       (validateDataForModel exPayload "1_12" true).months =
         min (monthsRequiredOf "1_12") (max 1 (totalCounted exPayload)))) :=
  ⟨by decide, validation_rejects_iff_no_assignments exPayload "1_12" (by decide)⟩

/-- Auxiliary: every element of `non_zero_scores` is positive. -/
theorem posScores_all_pos (d : StudentData) : ∀ x ∈ posScores d, 0 < x := by
  intro x hx
  unfold posScores at hx
  rcases List.mem_filterMap.mp hx with ⟨s, _, hs⟩
  match s with
  | none => simp at hs
  | some q =>
      by_cases hq : 0 < q
      · simp [hq] at hs
        exact hs ▸ hq
      · simp [hq] at hs

/-- Auxiliary: the mean of `non_zero_scores` is positive when the list is
non-empty (this is exactly why the historical `.replace(0, 1)` denominator
inflation can never fire on this value). -/
theorem avgScoreStored_pos (d : StudentData) (h : posScores d ≠ []) :
    0 < avgScoreStored d := by
  unfold avgScoreStored
  rw [if_neg h]
  apply div_pos
  · exact List.sum_pos _ (posScores_all_pos d) h
  · have : 0 < (posScores d).length := List.length_pos.mpr h
    exact_mod_cast this

/-- Auxiliary: unfolding of the ratio slot of the feature table. -/
theorem featureValue_ratio (fn : List String) (d : StudentData) :
    featureValue fn d "time_score_ratio_month_1_to_6" =
      (let avgS : PyNum :=
        if "avg_score_month_1_to_6" ∈ fn then some (avgScoreStored d)
        else pyOr1 (if posScores d = [] then none
                    else some ((posScores d).sum / (posScores d).length));
      let avgT : PyNum :=
        if "avg_time_month_1_to_6" ∈ fn then avgTimePy d else avgTimePy d;
      if pyGtZero avgS then pyDiv avgT avgS else some 0) := rfl

/-- C5: the `time_score_ratio` feature equals `avg_time / avg_score` when
`avg_score > 0` and is exactly `0` whenever `avg_score = 0`, with no
denominator inflation (the `or 1` fallback of line 862 can never replace
the denominator by 1, because a mean of positive scores is positive and
`np.mean([])` is truthy `nan`); the CSV-path formula of `predict.py` behaves
the same way at `avg_score = 0`. -/
theorem time_score_ratio_no_inflation (fn : List String) (d : StudentData)
    (t : ℚ) (ht : avgTimePy d = some t) :
    (featureValue fn d "time_score_ratio_month_1_to_6" =
       some (if 0 < avgScoreStored d then t / avgScoreStored d else 0)) ∧
    (avgScoreStored d = 0 →
       featureValue fn d "time_score_ratio_month_1_to_6" = some 0) ∧
    (∀ u : ℚ, earlyTimeScoreRatio 0 u = 0) := by
  have hthird : ∀ u : ℚ, earlyTimeScoreRatio 0 u = 0 := by
    intro u
    unfold earlyTimeScoreRatio
    simp
  have hmain : featureValue fn d "time_score_ratio_month_1_to_6" =
      some (if 0 < avgScoreStored d then t / avgScoreStored d else 0) := by
    rw [featureValue_ratio]
    by_cases hp : posScores d = []
    · have hz : avgScoreStored d = 0 := by
        unfold avgScoreStored
        rw [if_pos hp]
      by_cases hmem : "avg_score_month_1_to_6" ∈ fn <;>
        simp [hmem, hp, hz, pyOr1, pyGtZero]
    · have hpos : 0 < avgScoreStored d := avgScoreStored_pos d hp
      have hne : avgScoreStored d ≠ 0 := ne_of_gt hpos
      have hval : ((posScores d).sum / ((posScores d).length : ℚ)) =
          avgScoreStored d := by
        unfold avgScoreStored
        rw [if_neg hp]
      by_cases hmem : "avg_score_month_1_to_6" ∈ fn <;>
        simp [hmem, hp, hval, hne, pyOr1, pyGtZero, hpos, pyDiv, ht, ite_self]
  refine ⟨hmain, ?_, hthird⟩
  intro hz
  rw [hmain, hz]
  simp

/-- C5 witness: the example payload (one 30-minute submission of score 80)
has `avg_time = 5`; its stored average score is positive, so the ratio slot
is `5 / avg_score`. -/
theorem time_score_ratio_no_inflation_witness :
    avgTimePy exPayload = some 5 ∧
    (featureValue [] exPayload "time_score_ratio_month_1_to_6" =
       some (if 0 < avgScoreStored exPayload
             then 5 / avgScoreStored exPayload else 0)) ∧
    (avgScoreStored exPayload = 0 →
       featureValue [] exPayload "time_score_ratio_month_1_to_6" = some 0) ∧
    (∀ u : ℚ, earlyTimeScoreRatio 0 u = 0) := by
  have ht : avgTimePy exPayload = some 5 := by
    simp [avgTimePy, monthTimes, monthTime, bucketTimes, subsOf, courseSubs,
      exPayload, exSubmission, pyMean, pySum, pyAdd, pyDivNat, List.range,
      List.range.loop, List.enum, List.enumFrom, List.filterMap, List.flatMap]
    norm_num
  exact ⟨ht, time_score_ratio_no_inflation [] exPayload 5 ht⟩

/-- C2 counterexample: for the spec's example submission
(score 80, 30 minutes, not late) the serving-layer preprocessing —
regardless of the requested 3-month model — produces
`Score_Month_1..3 = [80, 80, 80]`, `TimeSpent_Month_1 = 30` with months
2-3 at 0, `avg_score = 80`, but engagement `= 1/6`, not the claimed `1/3`:
submissions are distributed and engagement is normalised over 6 simulated
months, never over the bundle's `months_required`. -/
theorem live_mode_engagement_counterexample :
    preprocess exSchema3 exPayload = .ok [80, 80, 80, 30, 0, 0, 80, 1 / 6] ∧
    (1 / 6 : ℚ) ≠ 1 / 3 := by
  constructor
  · simp [preprocess, featureValue, exSchema3, exPayload, exSubmission,
      cumScore, upToScores, bucketScores, bucketTimes, subsOf, courseSubs,
      monthTime, monthTimes, cumScores, pyMean, pySum, pyAdd, pyDivNat,
      pyGtZero, fillZero, posScores, avgScoreStored, List.range,
      List.range.loop, List.enum, List.enumFrom, List.filterMap, List.flatMap]
    norm_num
  · norm_num

/-- C2 (amended): in live-request mode submissions are distributed to
months by `assignment_index mod 6` regardless of the requested bundle's
`months_required`; the example submission yields
`Score_Month_1..3 = [80, 80, 80]`, `TimeSpent_Month_1 = 30` with months 2-3
at 0, `avg_score_month_1_to_6 = 80` and `engagement_month_1_to_6 = 1/6`.
With seven submissions (six of score 60, then one of score 90) the seventh
has index 6 and wraps into month 1 (`6 mod 6 = 0`), so `Score_Month_1`
becomes the mean `(60 + 90) / 2 = 75` — under the claimed `mod 3`
distribution for a 3-month bundle it would instead be `(60+60+90)/3 = 70`. -/
theorem live_mode_distribution_mod6 :
    preprocess exSchema3 exPayload = .ok [80, 80, 80, 30, 0, 0, 80, 1 / 6] ∧
    preprocess ["Score_Month_1"] paySeven = .ok [75] ∧ (75 : ℚ) ≠ 70 := by
  refine ⟨?_, ?_, by norm_num⟩
  · simp [preprocess, featureValue, exSchema3, exPayload, exSubmission,
      cumScore, upToScores, bucketScores, bucketTimes, subsOf, courseSubs,
      monthTime, monthTimes, cumScores, pyMean, pySum, pyAdd, pyDivNat,
      pyGtZero, fillZero, posScores, avgScoreStored, List.range,
      List.range.loop, List.enum, List.enumFrom, List.filterMap, List.flatMap]
    norm_num
  · simp [preprocess, featureValue, paySeven, cumScore, upToScores,
      bucketScores, bucketTimes, subsOf, courseSubs, monthTime, monthTimes,
      cumScores, pyMean, pySum, pyAdd, pyDivNat, pyGtZero, fillZero,
      posScores, avgScoreStored, List.range, List.range.loop, List.enum,
      List.enumFrom, List.filterMap, List.flatMap]
    norm_num

theorem pySum_cons (x : PyNum) (l : List PyNum) :
    pySum (x :: l) = pyAdd x (pySum l) := rfl

/-- Auxiliary: splitting the submissions with month `≤ m + 1` into those
with month `≤ m` and those with month `= m + 1` preserves the sum. -/
theorem pySum_filter_split (l : List (ℕ × Assignment)) (m : ℕ) :
    pySum (l.filterMap fun s => if s.1 ≤ m + 1 then some s.2.score else none) =
      pyAdd
        (pySum (l.filterMap fun s => if s.1 ≤ m then some s.2.score else none))
        (pySum (l.filterMap fun s => if s.1 = m + 1 then some s.2.score else none)) := by
  induction l with
  | nil => simp [pySum, pyAdd]
  | cons s t ih =>
      by_cases h1 : s.1 ≤ m
      · have h2 : s.1 ≤ m + 1 := by omega
        have h3 : ¬ s.1 = m + 1 := by omega
        simp only [List.filterMap_cons, if_pos h1, if_pos h2, if_neg h3,
          pySum_cons, ih]
        rw [← pyAdd_assoc]
      · by_cases h2 : s.1 = m + 1
        · have h3 : s.1 ≤ m + 1 := by omega
          have h4 : ¬ s.1 ≤ m := h1
          simp only [List.filterMap_cons, if_pos h3, if_neg h4, if_pos h2,
            pySum_cons, ih]
          rw [← pyAdd_assoc, pyAdd_comm s.2.score, pyAdd_assoc]
        · have h3 : ¬ s.1 ≤ m + 1 := by omega
          simp only [List.filterMap_cons, if_neg h1, if_neg h2, if_neg h3, ih]

/-- Auxiliary: the same split preserves the count. -/
theorem length_filter_split (l : List (ℕ × Assignment)) (m : ℕ) :
    (l.filterMap fun s => if s.1 ≤ m + 1 then some s.2.score else none).length =
      (l.filterMap fun s => if s.1 ≤ m then some s.2.score else none).length +
      (l.filterMap fun s => if s.1 = m + 1 then some s.2.score else none).length := by
  induction l with
  | nil => simp
  | cons s t ih =>
      by_cases h1 : s.1 ≤ m
      · have h2 : s.1 ≤ m + 1 := by omega
        have h3 : s.1 ≠ m + 1 := by omega
        simp [List.filterMap_cons, h1, h2, h3, ih]
        omega
      · by_cases h2 : s.1 = m + 1
        · have h3 : s.1 ≤ m + 1 := by omega
          simp [List.filterMap_cons, h1, h2, h3, ih]
          omega
        · have h3 : ¬ s.1 ≤ m + 1 := by omega
          simp [List.filterMap_cons, h1, h2, h3, ih]

theorem upToScores_succ (d : StudentData) (m : ℕ) :
    upToScores d (m + 1) = upToScores d m ++ bucketScores d (m + 1) := by
  simp [upToScores, List.range_succ]

theorem scoresAssignedUpTo_zero (d : StudentData) :
    scoresAssignedUpTo d 0 = bucketScores d 0 := by
  unfold scoresAssignedUpTo bucketScores
  congr 1
  funext s
  simp [Nat.le_zero]

/-- Auxiliary: the incrementally built `all_scores_up_to_month` list has
the same sum as the direct "all submissions assigned to months 1..m"
selection. -/
theorem upToScores_sum_spec (d : StudentData) (m : ℕ) :
    pySum (upToScores d m) = pySum (scoresAssignedUpTo d m) := by
  induction m with
  | zero =>
      rw [scoresAssignedUpTo_zero]
      simp [upToScores, List.range_succ]
  | succ m ih =>
      rw [upToScores_succ, pySum_append, ih]
      unfold scoresAssignedUpTo bucketScores
      rw [pySum_filter_split]

/-- Auxiliary: and the same length. -/
theorem upToScores_length_spec (d : StudentData) (m : ℕ) :
    (upToScores d m).length = (scoresAssignedUpTo d m).length := by
  induction m with
  | zero =>
      rw [scoresAssignedUpTo_zero]
      simp [upToScores, List.range_succ]
  | succ m ih =>
      rw [upToScores_succ, List.length_append, ih]
      unfold scoresAssignedUpTo bucketScores
      rw [length_filter_split]

/-- C8 counterexample: the live-path aggregation covers exactly 6 simulated
months, so for a longer horizon the months beyond 6 are left at the zero
default rather than carrying the cumulative mean forward: with one
submission of score 90, a schema slot `Score_Month_7` (as a 9- or 12-month
bundle would have) comes back 0, although the cumulative mean of months
1..7 is 90. -/
theorem score_month_seven_counterexample :
    preprocess ["Score_Month_7"] pay90 = .ok [0] ∧ (0 : ℚ) ≠ 90 := by
  refine ⟨?_, by norm_num⟩
  simp [preprocess, featureValue, pay90, fillZero]

/-- C8 (amended): in live-request mode, for each of the six simulated
months `m` (1-indexed; months beyond 6 of a longer horizon are left at 0 —
see the counterexample), the code's `cumulative_scores[m]` is the mean of
all submission scores assigned to months `1..m` (0 when there are none),
`monthly_time_totals[m]` is the sum of time spent within month `m` only,
a month with an empty bucket keeps the previous cumulative mean, and these
series are exactly what the `Score_Month_m` / `TimeSpent_Month_m` schema
slots receive. -/
theorem live_mode_monthly_series_spec (d : StudentData) (fn : List String)
    (m : ℕ) (h6 : m < 6) :
    (cumScore d m =
       if scoresAssignedUpTo d m = [] then some 0
       else pyMean (scoresAssignedUpTo d m)) ∧
    (monthTime d m = pySum (timesAssignedAt d m)) ∧
    (∀ k < 5, bucketScores d (k + 1) = [] → cumScore d (k + 1) = cumScore d k) ∧
    (featureValue fn d "Score_Month_1" = cumScore d 0 ∧
     featureValue fn d "Score_Month_2" = cumScore d 1 ∧
     featureValue fn d "Score_Month_3" = cumScore d 2 ∧
     featureValue fn d "Score_Month_4" = cumScore d 3 ∧
     featureValue fn d "Score_Month_5" = cumScore d 4 ∧
     featureValue fn d "Score_Month_6" = cumScore d 5) ∧
    (featureValue fn d "TimeSpent_Month_1" = monthTime d 0 ∧
     featureValue fn d "TimeSpent_Month_2" = monthTime d 1 ∧
     featureValue fn d "TimeSpent_Month_3" = monthTime d 2 ∧
     featureValue fn d "TimeSpent_Month_4" = monthTime d 3 ∧
     featureValue fn d "TimeSpent_Month_5" = monthTime d 4 ∧
     featureValue fn d "TimeSpent_Month_6" = monthTime d 5) := by
  refine ⟨?_, rfl, ?_, ⟨rfl, rfl, rfl, rfl, rfl, rfl⟩, ⟨rfl, rfl, rfl, rfl, rfl, rfl⟩⟩
  · have hlen := upToScores_length_spec d m
    have hsum := upToScores_sum_spec d m
    have hempty : (upToScores d m = []) ↔ (scoresAssignedUpTo d m = []) := by
      constructor <;> intro h <;>
        [skip; skip] <;> first
        | exact List.length_eq_zero.mp (by rw [← hlen, h]; rfl)
        | exact List.length_eq_zero.mp (by rw [hlen, h]; rfl)
    unfold cumScore
    by_cases he : upToScores d m = []
    · rw [if_pos he, if_pos (hempty.mp he)]
    · rw [if_neg he, if_neg (fun hc => he (hempty.mpr hc))]
      unfold pyMean
      rw [hsum, hlen]
  · intro k _ hk
    unfold cumScore
    rw [upToScores_succ, hk, List.append_nil]

/-- C8 witness: instantiation at the single-submission payload, month 1. -/
theorem live_mode_monthly_series_spec_witness :
    (0 : ℕ) < 6 ∧
    ((cumScore pay90 0 =
        if scoresAssignedUpTo pay90 0 = [] then some 0
        else pyMean (scoresAssignedUpTo pay90 0)) ∧
     (monthTime pay90 0 = pySum (timesAssignedAt pay90 0)) ∧
     (∀ k < 5, bucketScores pay90 (k + 1) = [] →
        cumScore pay90 (k + 1) = cumScore pay90 k) ∧
     (featureValue [] pay90 "Score_Month_1" = cumScore pay90 0 ∧
      featureValue [] pay90 "Score_Month_2" = cumScore pay90 1 ∧
      featureValue [] pay90 "Score_Month_3" = cumScore pay90 2 ∧
      featureValue [] pay90 "Score_Month_4" = cumScore pay90 3 ∧
      featureValue [] pay90 "Score_Month_5" = cumScore pay90 4 ∧
      featureValue [] pay90 "Score_Month_6" = cumScore pay90 5) ∧
     (featureValue [] pay90 "TimeSpent_Month_1" = monthTime pay90 0 ∧
      featureValue [] pay90 "TimeSpent_Month_2" = monthTime pay90 1 ∧
      featureValue [] pay90 "TimeSpent_Month_3" = monthTime pay90 2 ∧
      featureValue [] pay90 "TimeSpent_Month_4" = monthTime pay90 3 ∧
      featureValue [] pay90 "TimeSpent_Month_5" = monthTime pay90 4 ∧
      featureValue [] pay90 "TimeSpent_Month_6" = monthTime pay90 5)) :=
  ⟨by decide, live_mode_monthly_series_spec pay90 [] 0 (by decide)⟩

/-- C1: evaluation of the `/api/predict` flow at the failing input.  With
persistent active model `1_3`, a request for `1_6` whose classifier raises
during prediction returns the 500 response from the prediction `except`
clause — which does not restore the active model — so the global
`current_model_type` is left at `1_6` instead of the original `1_3`, and a
subsequent request with no `model_id` observes `1_6`. -/
theorem predict_override_not_restored_on_prediction_error :
    predictFlow regTwo "1_3" ⟨some "1_6", exPayload, true⟩ =
      ("1_6", POutcome.predictionFailed) ∧
    ("1_6" : String) ≠ "1_3" := by
  refine ⟨?_, by decide⟩
  simp [predictFlow, predictCore, validateDataForModel, validateCore,
    countedAssignments, validInput, preprocess, featureValue, regTwo,
    exPayload, availableModels, List.lookup, fillZero]

/-- Auxiliary: for a student entry that is a JSON object, every failure
(validation, preprocessing, prediction) is caught and recorded — the
iteration always yields a success or a failure record, never an escaping
exception. -/
theorem processOne_isSome (c : Classifier) (fn : List String) (i : ℕ)
    (sid sname : Option String) (d : StudentData) :
    ∃ r, processOne c fn i (.dict sid sname d) = some r := by
  by_cases hv : validInput d
  · rcases hp : preprocess fn d with e | v
    · simp [processOne, hv, hp]
    · rcases hcv : c v with _ | ⟨pred, p⟩
      · simp [processOne, hv, hp, hcv]
      · simp [processOne, hv, hp, hcv]
  · simp [processOne, hv]

/-- Auxiliary: when no entry of the batch is a non-object, the loop
completes and every student lands either in `results` or in
`failed_predictions`. -/
theorem processAll_total (c : Classifier) (fn : List String) :
    ∀ (l : List SItem) (i : ℕ), SItem.notDict ∉ l →
      ∃ res fails, processAll c fn i l = some (res, fails) ∧
        res.length + fails.length = l.length := by
  intro l
  induction l with
  | nil => exact fun i _ => ⟨[], [], rfl, rfl⟩
  | cons s t ih =>
      intro i hs
      have hst : SItem.notDict ∉ t := fun h => hs (List.mem_cons_of_mem _ h)
      obtain ⟨res, fails, hp, hlen⟩ := ih (i + 1) hst
      match s with
      | .notDict => exact absurd (List.mem_cons_self _ _) hs
      | .dict sid sname d =>
          obtain ⟨r, hr⟩ := processOne_isSome c fn i sid sname d
          match r with
          | .inl x =>
              refine ⟨x :: res, fails, ?_, ?_⟩
              · unfold processAll
                rw [hr, hp]
              · simp only [List.length_cons]
                omega
          | .inr f =>
              refine ⟨res, f :: fails, ?_, ?_⟩
              · unfold processAll
                rw [hr, hp]
              · simp only [List.length_cons]
                omega

/-- C9 counterexample: a batch whose second entry is not a JSON object
(e.g. a bare string) does not yield a failure record for that entry —
the `except` handler itself raises `AttributeError` and the entire call
fails with the generic 500, aborting the remaining students. -/
theorem batch_nondict_aborts_batch :
    predictBatch clfConst ["gradeLevel"] [stu1, SItem.notDict] =
      .internalError := by
  simp [predictBatch, processAll, processOne, clfConst, stu1, exPayload,
    exSubmission, validInput, preprocess, featureValue, fillZero, mkSummary]

/-- C9 (amended): a batch of 1-100 students, each of which is a JSON
object, is processed with per-student isolation: every student lands
either in `results` or (on validation/preprocessing/prediction failure) in
the `failed` list — no student aborts the others — and the summary counts
at-risk students and the at-risk percentage over the successes only; a
batch of more than 100 students is rejected.  (A non-object student entry,
however, aborts the whole call — see the counterexample.) -/
theorem batch_isolation_spec (c : Classifier) (fn : List String)
    (students : List SItem) :
    (100 < students.length → predictBatch c fn students = .badRequest) ∧
    (SItem.notDict ∉ students → 1 ≤ students.length →
      students.length ≤ 100 →
      ∃ res fails, predictBatch c fn students = .ok res fails (mkSummary res fails) ∧
        res.length + fails.length = students.length ∧
        (mkSummary res fails).atRisk = (res.filter fun r => r.isAtRisk).length ∧
        (mkSummary res fails).atRiskPct =
          (if 0 < res.length
           then (((res.filter fun r => r.isAtRisk).length : ℚ) / (res.length : ℚ)) * 100
           else 0)) := by
  constructor
  · intro h
    unfold predictBatch
    rw [if_neg (by omega), if_pos h]
  · intro hnd h1 h100
    obtain ⟨res, fails, hp, hlen⟩ := processAll_total c fn students 0 hnd
    refine ⟨res, fails, ?_, hlen, rfl, rfl⟩
    unfold predictBatch
    rw [if_neg (by omega), if_neg (by omega), hp]

/-- C9 witness: the spec's 3-student batch where student 2's `courses` is
malformed — two successes, one failure entry carrying student 2's id and
name, and summary counts over the two successes. -/
theorem batch_isolation_spec_witness :
    (SItem.notDict ∉ [stu1, stu2, stu3] ∧
     1 ≤ ([stu1, stu2, stu3] : List SItem).length ∧
     ([stu1, stu2, stu3] : List SItem).length ≤ 100) ∧
    (∃ res fails,
        predictBatch clfConst ["gradeLevel"] [stu1, stu2, stu3] =
          .ok res fails (mkSummary res fails) ∧
        res.length + fails.length = ([stu1, stu2, stu3] : List SItem).length ∧
        (mkSummary res fails).atRisk = (res.filter fun r => r.isAtRisk).length ∧
        (mkSummary res fails).atRiskPct =
          (if 0 < res.length
           then (((res.filter fun r => r.isAtRisk).length : ℚ) / (res.length : ℚ)) * 100
           else 0)) ∧
    predictBatch clfConst ["gradeLevel"] [stu1, stu2, stu3] =
      .ok [⟨"s1", "A", false, 1 / 2⟩, ⟨"s3", "C", false, 1 / 2⟩]
        [⟨"s2", "B"⟩] ⟨2, 2, 1, 0, 0⟩ := by
  refine ⟨⟨by decide, by decide, by decide⟩, ?_, ?_⟩
  · exact (batch_isolation_spec clfConst ["gradeLevel"] [stu1, stu2, stu3]).2
      (by decide) (by decide) (by decide)
  · simp [predictBatch, processAll, processOne, clfConst, stu1, stu2, stu3,
      exPayload, exSubmission, pay90, payBadCourses, validInput, preprocess,
      featureValue, fillZero, mkSummary]
